import Mathlib

/-!
Shallow embedding of `src/cpp/desktop/DesktopOptions.cpp` (RStudio desktop
options). The `Options` class wraps a Qt `QSettings` key-value store plus a
few pieces of in-memory state (a cached port number string, the desktop-frame
zoom level) and the filesystem (scratch directory management). We model:

* `QVariant` — the subset of Qt variant values this file stores/reads
  (doubles are modelled as rationals, which is exact for the store/load
  round-trips the file performs);
* `Settings` — an association list with `setValue` / `value` / `remove` /
  `contains`, mirroring `QSettings`;
* `OptionsState` — the fields of the `Options` singleton that the modelled
  operations touch, together with the process environment, the filesystem,
  the global `scratchPath`, and an explicit stream of draws from
  `core::random::uniformRandomInteger<int>()` (the random source is an
  input, not derived state);
* each `Options` method the claims mention, translated line by line.

Machine arithmetic: the port computation uses C++ `int` (32-bit two's
complement), `std::abs` and C++ `%` (truncated remainder). `std::abs` applied
to `INT_MIN` overflows; we model the two's-complement wrap-around result via
`wrap32`, and C++ `%` via `cppMod`.
-/

namespace DesktopOptions

/-- Window/display geometry, `QSize`. -/
structure QSize where
  w : Int
  h : Int
deriving DecidableEq

/-- Window geometry rectangle, `QRect` (position and size). -/
structure QRect where
  x : Int
  y : Int
  rw : Int
  rh : Int
deriving DecidableEq

/-- `QSize::boundedTo`: componentwise minimum. -/
def QSize.boundedTo (a b : QSize) : QSize := ⟨min a.w b.w, min a.h b.h⟩

/-- The Qt variant values `DesktopOptions.cpp` stores in `QSettings`.
`vNull` is the invalid `QVariant()` returned when a key is absent and no
default was supplied. Doubles are modelled as rationals. -/
inductive QVariant where
  | vNull
  | vDouble (q : ℚ)
  | vBool (b : Bool)
  | vString (s : String)
  | vRect (r : QRect)
  | vStringList (l : List String)
deriving DecidableEq

/-- `QVariant::toDouble`. Only the `vDouble` case is exercised by the code
(defaults are passed as doubles); the other conversions are Qt-approximate. -/
def QVariant.toDouble : QVariant → ℚ
  | .vDouble q => q
  | .vBool b => if b then 1 else 0
  | _ => 0

/-- `QVariant::toBool`. Only the `vBool` case is exercised by the code. -/
def QVariant.toBool : QVariant → Bool
  | .vBool b => b
  | .vDouble q => q ≠ 0
  | .vString s => ¬ (s = "" ∨ s = "0" ∨ s = "false")
  | _ => false

/-- `QVariant::toString` (to `QString`). A null variant and inconvertible
variants give the empty string. -/
def QVariant.toQString : QVariant → String
  | .vString s => s
  | .vBool b => if b then "true" else "false"
  | _ => ""

/-- `QVariant::toRect`: a non-rect variant converts to the null rectangle. -/
def QVariant.toRect : QVariant → QRect
  | .vRect r => r
  | _ => ⟨0, 0, 0, 0⟩

/-- The `QSettings` store: an association list from keys to variants, most
recent binding first. -/
abbrev Settings := List (String × QVariant)

/-- Key lookup in the store. -/
def Settings.lookup : Settings → String → Option QVariant
  | [], _ => none
  | (k, v) :: t, key => if key = k then some v else Settings.lookup t key

/-- `QSettings::remove`. -/
def Settings.removeKey : Settings → String → Settings
  | [], _ => []
  | (k, v) :: t, key =>
      if k = key then Settings.removeKey t key
      else (k, v) :: Settings.removeKey t key

/-- `QSettings::setValue`: bind `key` to `v`, replacing any previous binding. -/
def Settings.setValue (st : Settings) (key : String) (v : QVariant) : Settings :=
  (key, v) :: Settings.removeKey st key

/-- `QSettings::value(key, default)`. -/
def Settings.value (st : Settings) (key : String) (d : QVariant) : QVariant :=
  (Settings.lookup st key).getD d

/-- `QSettings::contains`. -/
def Settings.contains (st : Settings) (key : String) : Bool :=
  (Settings.lookup st key).isSome

theorem Settings.lookup_removeKey_ne (st : Settings) (k k' : String) (h : k' ≠ k) :
    Settings.lookup (Settings.removeKey st k) k' = Settings.lookup st k' := by
  induction st with
  | nil => rfl
  | cons p t ih =>
    obtain ⟨pk, pv⟩ := p
    by_cases hp : pk = k
    · subst hp
      simp [Settings.removeKey, Settings.lookup, h, ih]
    · simp only [Settings.removeKey, if_neg hp, Settings.lookup]
      by_cases hk : k' = pk <;> simp [hk, ih]

theorem Settings.lookup_setValue_self (st : Settings) (k : String) (v : QVariant) :
    Settings.lookup (Settings.setValue st k v) k = some v := by
  simp [Settings.setValue, Settings.lookup]

theorem Settings.lookup_setValue_ne (st : Settings) (k k' : String) (v : QVariant)
    (h : k' ≠ k) :
    Settings.lookup (Settings.setValue st k v) k' = Settings.lookup st k' := by
  simp [Settings.setValue, Settings.lookup, h, Settings.lookup_removeKey_ne st k k' h]

theorem Settings.lookup_removeKey_self (st : Settings) (k : String) :
    Settings.lookup (Settings.removeKey st k) k = none := by
  induction st with
  | nil => rfl
  | cons p t ih =>
    obtain ⟨pk, pv⟩ := p
    by_cases hp : pk = k
    · simpa [Settings.removeKey, hp] using ih
    · have : k ≠ pk := fun hk => hp hk.symm
      simp [Settings.removeKey, hp, Settings.lookup, this, ih]

/-- A filesystem path, as a list of components; `[]` is the empty
`core::FilePath()`. -/
abbrev DirPath := List String

/-- `FilePath::childPath`. -/
def childPath (p : DirPath) (c : String) : DirPath := p ++ [c]

/-- The directories of the filesystem, plus the set of paths where a
directory could successfully be created. -/
structure FileSystem where
  dirs : List DirPath
  creatable : List DirPath
deriving DecidableEq

/-- `FilePath::ensureDirectory`: succeed immediately when the directory
exists, create it when possible, and report an error otherwise. -/
def ensureDirectory (fs : FileSystem) (p : DirPath) : Option FileSystem :=
  if fs.dirs.contains p then some fs
  else if fs.creatable.contains p then some { fs with dirs := p :: fs.dirs }
  else none

/-- `FilePath::removeIfExists` on a directory removes it and everything
under it. -/
def removeIfExists (fs : FileSystem) (p : DirPath) : FileSystem :=
  { fs with dirs := fs.dirs.filter (fun d => ¬ p.isPrefixOf d) }

/-- Reduce a value into the 32-bit two's complement range
`[-2^31, 2^31)`, as storing it in a C++ `int` would. -/
def wrap32 (n : Int) : Int := (n + 2 ^ 31) % 2 ^ 32 - 2 ^ 31

/-- `std::abs` on a C++ `int`: the true absolute value wrapped into the
`int` range (so `INT_MIN` maps to `INT_MIN`). -/
def cppAbs (r : Int) : Int := wrap32 (r.natAbs : Int)

/-- C++ `%`: remainder truncated toward zero (for a positive divisor). -/
def cppMod (a b : Int) : Int := if 0 ≤ a then a % b else -((-a) % b)

/-- Lines 101-102: `(std::abs(random) % 40000) + 8080`. -/
def portOfRandom (r : Int) : Int := cppMod (cppAbs r) 40000 + 8080

/-- The state an `Options` operation can read or write: the `QSettings`
store, the process environment, the filesystem, the global `scratchPath`,
the cached `portNumber_` string, the desktop-frame zoom level held by
`DesktopInfo`, and the stream of pending draws of
`core::random::uniformRandomInteger<int>()`. -/
structure OptionsState where
  settings : Settings
  env : List (String × String)
  fs : FileSystem
  scratchPath : DirPath
  portNumber_ : String
  desktopZoom : ℚ
  randStream : List Int
deriving DecidableEq

namespace Options

/-- `Options::portNumber` (lines 94-115, non-Windows build): generate a
random port on demand and cache it; afterwards return the cached value. -/
def portNumber (s : OptionsState) : String × OptionsState :=
  if s.portNumber_.length = 0 then
    let pn := toString (portOfRandom (s.randStream.headD 0))
    (pn, { s with portNumber_ := pn, randStream := s.randStream.tail })
  else
    (s.portNumber_, s)

/-- `Options::newPortNumber` (lines 117-121): clear the cache, regenerate. -/
def newPortNumber (s : OptionsState) : String × OptionsState :=
  portNumber { s with portNumber_ := "" }

/-- `Options::desktopRenderingEngine` (lines 128-131). -/
def desktopRenderingEngine (s : OptionsState) : String :=
  (Settings.value s.settings "desktop.renderingEngine" .vNull).toQString

/-- `Options::setDesktopRenderingEngine` (lines 133-136). -/
def setDesktopRenderingEngine (s : OptionsState) (engine : String) : OptionsState :=
  { s with settings := Settings.setValue s.settings "desktop.renderingEngine" (.vString engine) }

/-- `Options::zoomLevel` (lines 247-251). -/
def zoomLevel (s : OptionsState) : ℚ :=
  (Settings.value s.settings "view.zoomLevel" (.vDouble 1)).toDouble

/-- `Options::setZoomLevel` (lines 253-257): push the level to the desktop
frame and persist it. -/
def setZoomLevel (s : OptionsState) (z : ℚ) : OptionsState :=
  { s with desktopZoom := z,
           settings := Settings.setValue s.settings "view.zoomLevel" (.vDouble z) }

/-- `Options::enableAccessibility` (lines 259-263). -/
def enableAccessibility (s : OptionsState) : Bool :=
  (Settings.value s.settings "view.accessibility" (.vBool false)).toBool

/-- `Options::setEnableAccessibility` (lines 265-268). -/
def setEnableAccessibility (s : OptionsState) (enable : Bool) : OptionsState :=
  { s with settings := Settings.setValue s.settings "view.accessibility" (.vBool enable) }

/-- `Options::clipboardMonitoring` (lines 270-274). -/
def clipboardMonitoring (s : OptionsState) : Bool :=
  (Settings.value s.settings "clipboard.monitoring" (.vBool true)).toBool

/-- `Options::setClipboardMonitoring` (lines 276-279). -/
def setClipboardMonitoring (s : OptionsState) (monitoring : Bool) : OptionsState :=
  { s with settings := Settings.setValue s.settings "clipboard.monitoring" (.vBool monitoring) }

/-- `Options::ignoreGpuBlacklist` (lines 281-285). -/
def ignoreGpuBlacklist (s : OptionsState) : Bool :=
  (Settings.value s.settings "general.ignoreGpuBlacklist" (.vBool false)).toBool

/-- `Options::setIgnoreGpuBlacklist` (lines 287-290). -/
def setIgnoreGpuBlacklist (s : OptionsState) (ignore : Bool) : OptionsState :=
  { s with settings := Settings.setValue s.settings "general.ignoreGpuBlacklist" (.vBool ignore) }

/-- `Options::disableGpuDriverBugWorkarounds` (lines 292-296). -/
def disableGpuDriverBugWorkarounds (s : OptionsState) : Bool :=
  (Settings.value s.settings "general.disableGpuDriverBugWorkarounds" (.vBool false)).toBool

/-- `Options::setDisableGpuDriverBugWorkarounds` (lines 298-301). -/
def setDisableGpuDriverBugWorkarounds (s : OptionsState) (disable : Bool) : OptionsState :=
  { s with settings := Settings.setValue s.settings "general.disableGpuDriverBugWorkarounds" (.vBool disable) }

/-- `Options::scratchTempDir` (lines 427-439): when the global scratch path
is non-empty and exists, return its `tmp` child provided `ensureDirectory`
succeeds; otherwise return `defaultPath`. -/
def scratchTempDir (s : OptionsState) (defaultPath : DirPath) : DirPath × OptionsState :=
  if s.scratchPath ≠ [] ∧ s.fs.dirs.contains s.scratchPath then
    match ensureDirectory s.fs (childPath s.scratchPath "tmp") with
    | some fs' => (childPath s.scratchPath "tmp", { s with fs := fs' })
    | none => (defaultPath, s)
  else
    (defaultPath, s)

/-- `Options::cleanUpScratchTempDir` (lines 441-446): remove the scratch
temp dir when `scratchTempDir(FilePath())` produced a non-empty path. -/
def cleanUpScratchTempDir (s : OptionsState) : OptionsState :=
  let r := scratchTempDir s []
  if r.1 ≠ [] then { r.2 with fs := removeIfExists r.2.fs r.1 } else r.2

end Options

/-- The three platform branches of the `#if` preprocessor conditionals. -/
inductive Platform where
  | windows
  | mac
  | linux
deriving DecidableEq

/-- The font environment the Qt font database provides: which font names
give `QFont::exactMatch()`, and which of those `isFixedWidthFont` accepts. -/
structure FontEnv where
  installed : List String
  fixedWidth : List String
deriving DecidableEq

/-- The test on one candidate font in `findFirstMatchingFont` (lines
146-147): `font.exactMatch()` and, when `fixedWidthOnly`,
`isFixedWidthFont(font)`. -/
def fontMatches (env : FontEnv) (fixedWidthOnly : Bool) (f : String) : Bool :=
  env.installed.contains f && (!fixedWidthOnly || env.fixedWidth.contains f)

/-- `findFirstMatchingFont` (lines 139-151): the first candidate passing
the match test, else `defaultFont`. -/
def findFirstMatchingFont (env : FontEnv) (fonts : List String)
    (defaultFont : String) (fixedWidthOnly : Bool) : String :=
  match fonts.find? (fontMatches env fixedWidthOnly) with
  | some f => f
  | none => defaultFont

/-- `QStringLiteral("\"%1\"").arg(font)`: the name in double quotes. -/
def quoted (s : String) : String := "\"" ++ s ++ "\""

/-- The proportional-font candidate list (lines 169-187), per platform. -/
def proportionalFontList : Platform → List String
  | .windows => ["Segoe UI", "Verdana", "Lucida Sans", "DejaVu Sans",
                 "Lucida Grande", "Helvetica"]
  | .mac => ["Lucida Grande", "Lucida Sans", "DejaVu Sans", "Segoe UI",
             "Verdana", "Helvetica"]
  | .linux => ["Lucida Sans", "DejaVu Sans", "Lucida Grande", "Segoe UI",
               "Verdana", "Helvetica"]

/-- The fixed-width-font candidate list (lines 224-233), per platform. -/
def fixedWidthFontList : Platform → List String
  | .mac => ["Monaco"]
  | .linux => ["Ubuntu Mono", "Droid Sans Mono", "DejaVu Sans Mono", "Monospace"]
  | .windows => ["Lucida Console", "Consolas"]

namespace Options

/-- `Options::proportionalFont` (lines 154-199). The function-local
`static QString detectedFont` is never assigned anywhere in the file, so
its non-empty check (line 165) is dead code and is not modelled. -/
def proportionalFont (env : FontEnv) (plat : Platform) (s : OptionsState) : String :=
  let font := (Settings.value s.settings "font.proportional" .vNull).toQString
  if font ≠ "" then font
  else
    let selectedFont := findFirstMatchingFont env (proportionalFontList plat) "sans-serif" false
    if selectedFont = "sans-serif" then "sans-serif" else quoted selectedFont

/-- `Options::setFixedWidthFont` (lines 201-208): an empty name removes the
key, anything else is stored. -/
def setFixedWidthFont (s : OptionsState) (font : String) : OptionsState :=
  if font = "" then
    { s with settings := Settings.removeKey s.settings "font.fixedWidth" }
  else
    { s with settings := Settings.setValue s.settings "font.fixedWidth" (.vString font) }

/-- The detection branch of `Options::fixedWidthFont` (lines 224-243). -/
def detectedFixedWidthFont (env : FontEnv) (plat : Platform) : String :=
  let matchingFont := findFirstMatchingFont env (fixedWidthFontList plat) "monospace" true
  if matchingFont = "monospace" then "monospace" else quoted matchingFont

/-- `Options::fixedWidthFont` (lines 210-244): a stored non-empty name is
returned wrapped in double quotes (line 218), otherwise a platform font is
detected. The never-assigned `static QString detectedFont` (line 221) is
dead code, as in `proportionalFont`. -/
def fixedWidthFont (env : FontEnv) (plat : Platform) (s : OptionsState) : String :=
  let font := (Settings.value s.settings "font.fixedWidth" .vNull).toQString
  if font ≠ "" then "\"" ++ font ++ "\""
  else detectedFixedWidthFont env plat

end Options

/-- A `QMainWindow`, reduced to the geometry the modelled code touches. -/
structure QMainWindow where
  geometry : QRect
deriving DecidableEq

/-- `QWidget::setGeometry`. -/
def QMainWindow.setGeometry (win : QMainWindow) (r : QRect) : QMainWindow :=
  { win with geometry := r }

/-- `QWidget::resize`: change the size, keep the position. -/
def QMainWindow.resize (win : QMainWindow) (sz : QSize) : QMainWindow :=
  { win with geometry := { win.geometry with rw := sz.w, rh := sz.h } }

namespace Options

/-- `Options::saveMainWindowBounds` (lines 84-92). -/
def saveMainWindowBounds (s : OptionsState) (win : QMainWindow) : OptionsState :=
  { s with settings :=
      Settings.setValue s.settings "mainwindow/bounds" (.vRect win.geometry) }

/-- `Options::restoreMainWindowBounds` (lines 60-82); `avail` is
`QApplication::desktop()->availableGeometry().size()`. -/
def restoreMainWindowBounds (s : OptionsState) (avail : QSize) (win : QMainWindow) :
    QMainWindow :=
  if Settings.contains s.settings "mainwindow/bounds" then
    win.setGeometry (Settings.value s.settings "mainwindow/bounds" .vNull).toRect
  else
    let size := (QSize.mk 1200 900).boundedTo avail
    if size.w > 800 ∧ size.h > 500 then win.resize size else win

end Options

/-! ## Auxiliary lemmas and concrete states -/

theorem Settings.value_setValue_ne (st : Settings) (k k' : String) (v d : QVariant)
    (h : k' ≠ k) :
    Settings.value (Settings.setValue st k v) k' d = Settings.value st k' d := by
  simp [Settings.value, Settings.lookup_setValue_ne st k k' v h]

theorem Settings.value_removeKey_ne (st : Settings) (k k' : String) (d : QVariant)
    (h : k' ≠ k) :
    Settings.value (Settings.removeKey st k) k' d = Settings.value st k' d := by
  simp [Settings.value, Settings.lookup_removeKey_ne st k k' h]

/-- A fresh `Options` state: empty store, empty environment, empty
filesystem, no scratch path, no cached port, default zoom, no pending
random draws. -/
def baseState : OptionsState :=
  { settings := [], env := [], fs := ⟨[], []⟩, scratchPath := [],
    portNumber_ := "", desktopZoom := 1, randStream := [] }

/-- `baseState` with the three scalar-preference keys present. -/
def presentState : OptionsState :=
  { baseState with settings :=
      [("view.zoomLevel", .vDouble 2), ("view.accessibility", .vBool true),
       ("clipboard.monitoring", .vBool false)] }

/-- A fresh state whose first random draw is `0`. -/
def randA : OptionsState := { baseState with randStream := [0] }

/-- A fresh state whose first random draw is `1`: it agrees with `randA`
on the settings store, environment, and filesystem. -/
def randB : OptionsState := { baseState with randStream := [1] }

/-- A fresh state whose first random draw is `INT_MIN`. -/
def randMin : OptionsState := { baseState with randStream := [-(2 ^ 31)] }

/-! ## Claims -/

/-- Claim C2 (confirmed): each scalar preference accessor reads one key and
falls back to its default when the key is absent — `zoomLevel` defaults to
`1.0`, `enableAccessibility` to `false`, `clipboardMonitoring` to `true` —
and returns the stored value when the key is present. -/
theorem scalar_accessor_defaults (s : OptionsState) :
    (Settings.lookup s.settings "view.zoomLevel" = none → Options.zoomLevel s = 1) ∧
    (∀ z : ℚ, Settings.lookup s.settings "view.zoomLevel" = some (.vDouble z) →
       Options.zoomLevel s = z) ∧
    (Settings.lookup s.settings "view.accessibility" = none →
       Options.enableAccessibility s = false) ∧
    (∀ b : Bool, Settings.lookup s.settings "view.accessibility" = some (.vBool b) →
       Options.enableAccessibility s = b) ∧
    (Settings.lookup s.settings "clipboard.monitoring" = none →
       Options.clipboardMonitoring s = true) ∧
    (∀ b : Bool, Settings.lookup s.settings "clipboard.monitoring" = some (.vBool b) →
       Options.clipboardMonitoring s = b) := by
  refine ⟨fun h => ?_, fun z h => ?_, fun h => ?_, fun b h => ?_, fun h => ?_, fun b h => ?_⟩ <;>
    simp [Options.zoomLevel, Options.enableAccessibility, Options.clipboardMonitoring,
          Settings.value, h, QVariant.toDouble, QVariant.toBool]

/-- Witness for C2: defaults on the empty store, stored values on
`presentState`. -/
theorem scalar_accessor_defaults_witness :
    Options.zoomLevel baseState = 1 ∧
    Options.enableAccessibility baseState = false ∧
    Options.clipboardMonitoring baseState = true ∧
    Options.zoomLevel presentState = 2 ∧
    Options.enableAccessibility presentState = true ∧
    Options.clipboardMonitoring presentState = false :=
  ⟨(scalar_accessor_defaults baseState).1 (by decide),
   (scalar_accessor_defaults baseState).2.2.1 (by decide),
   (scalar_accessor_defaults baseState).2.2.2.2.1 (by decide),
   (scalar_accessor_defaults presentState).2.1 2 (by decide),
   (scalar_accessor_defaults presentState).2.2.2.1 true (by decide),
   (scalar_accessor_defaults presentState).2.2.2.2.2 false (by decide)⟩

/-- Claim C3 (confirmed): the GPU workaround flags default to `false` when
their keys are absent, and each setter/getter pair round-trips. -/
theorem gpu_flag_accessors (s : OptionsState) :
    (Settings.lookup s.settings "general.ignoreGpuBlacklist" = none →
       Options.ignoreGpuBlacklist s = false) ∧
    (Settings.lookup s.settings "general.disableGpuDriverBugWorkarounds" = none →
       Options.disableGpuDriverBugWorkarounds s = false) ∧
    (∀ b : Bool, Options.ignoreGpuBlacklist (Options.setIgnoreGpuBlacklist s b) = b) ∧
    (∀ b : Bool, Options.disableGpuDriverBugWorkarounds
       (Options.setDisableGpuDriverBugWorkarounds s b) = b) := by
  refine ⟨fun h => ?_, fun h => ?_, fun b => ?_, fun b => ?_⟩
  · simp [Options.ignoreGpuBlacklist, Settings.value, h, QVariant.toBool]
  · simp [Options.disableGpuDriverBugWorkarounds, Settings.value, h, QVariant.toBool]
  · simp [Options.ignoreGpuBlacklist, Options.setIgnoreGpuBlacklist,
          Settings.value, Settings.lookup_setValue_self, QVariant.toBool]
  · simp [Options.disableGpuDriverBugWorkarounds, Options.setDisableGpuDriverBugWorkarounds,
          Settings.value, Settings.lookup_setValue_self, QVariant.toBool]

/-- Witness for C3: defaults on the empty store, round-trip at `true`. -/
theorem gpu_flag_accessors_witness :
    Options.ignoreGpuBlacklist baseState = false ∧
    Options.disableGpuDriverBugWorkarounds baseState = false ∧
    Options.ignoreGpuBlacklist (Options.setIgnoreGpuBlacklist baseState true) = true ∧
    Options.disableGpuDriverBugWorkarounds
      (Options.setDisableGpuDriverBugWorkarounds baseState true) = true :=
  ⟨(gpu_flag_accessors baseState).1 (by decide),
   (gpu_flag_accessors baseState).2.1 (by decide),
   (gpu_flag_accessors baseState).2.2.1 true,
   (gpu_flag_accessors baseState).2.2.2 true⟩

/-- Claim C4 (confirmed): `saveMainWindowBounds` stores the window geometry
under `"mainwindow/bounds"`, and a subsequent `restoreMainWindowBounds`
takes the saved-bounds branch (the key is present) and sets the target
window's geometry to exactly the saved rectangle. -/
theorem mainWindowBounds_roundTrip (s : OptionsState) (win win2 : QMainWindow)
    (avail : QSize) :
    Settings.contains (Options.saveMainWindowBounds s win).settings
      "mainwindow/bounds" = true ∧
    Options.restoreMainWindowBounds (Options.saveMainWindowBounds s win) avail win2
      = win2.setGeometry win.geometry ∧
    (Options.restoreMainWindowBounds (Options.saveMainWindowBounds s win) avail
       win2).geometry = win.geometry := by
  have hl : Settings.lookup (Options.saveMainWindowBounds s win).settings
      "mainwindow/bounds" = some (.vRect win.geometry) := by
    simp [Options.saveMainWindowBounds, Settings.lookup_setValue_self]
  have hc : Settings.contains (Options.saveMainWindowBounds s win).settings
      "mainwindow/bounds" = true := by
    simp [Settings.contains, hl]
  refine ⟨hc, ?_, ?_⟩ <;>
    simp [Options.restoreMainWindowBounds, hc, Settings.value, hl,
          QVariant.toRect, QMainWindow.setGeometry]

/-- Claim C5 (confirmed): `setZoomLevel z` stores `z` under
`"view.zoomLevel"`, pushes `z` to the desktop frame, and a subsequent
`zoomLevel()` returns `z`. -/
theorem setZoomLevel_persists (s : OptionsState) (z : ℚ) :
    Settings.lookup (Options.setZoomLevel s z).settings "view.zoomLevel"
      = some (.vDouble z) ∧
    (Options.setZoomLevel s z).desktopZoom = z ∧
    Options.zoomLevel (Options.setZoomLevel s z) = z := by
  refine ⟨?_, rfl, ?_⟩ <;>
    simp [Options.setZoomLevel, Options.zoomLevel, Settings.value,
          Settings.lookup_setValue_self, QVariant.toDouble]

/-- Claim C6 (confirmed): `scratchTempDir` returns the `tmp` child of the
scratch path exactly when the scratch path is non-empty, exists, and
`ensureDirectory` on the child succeeds, and returns `defaultPath` with the
state untouched in every other case; `cleanUpScratchTempDir` preserves
every directory not under the scratch `tmp` child (in particular the OS
temp directory, which is not under it) and is the identity when the
scratch path is empty or does not exist. -/
theorem scratchTempDir_spec (s : OptionsState) (d : DirPath) :
    (∀ fs', s.scratchPath ≠ [] → s.scratchPath ∈ s.fs.dirs →
       ensureDirectory s.fs (childPath s.scratchPath "tmp") = some fs' →
       Options.scratchTempDir s d = (childPath s.scratchPath "tmp", { s with fs := fs' })) ∧
    (s.scratchPath = [] ∨ s.scratchPath ∉ s.fs.dirs ∨
       ensureDirectory s.fs (childPath s.scratchPath "tmp") = none →
       Options.scratchTempDir s d = (d, s)) ∧
    (∀ p, p ∈ s.fs.dirs → (childPath s.scratchPath "tmp").isPrefixOf p = false →
       p ∈ (Options.cleanUpScratchTempDir s).fs.dirs) ∧
    (s.scratchPath = [] ∨ s.scratchPath ∉ s.fs.dirs →
       Options.cleanUpScratchTempDir s = s) := by
  have hA : ∀ fs' d', s.scratchPath ≠ [] → s.scratchPath ∈ s.fs.dirs →
      ensureDirectory s.fs (childPath s.scratchPath "tmp") = some fs' →
      Options.scratchTempDir s d' = (childPath s.scratchPath "tmp", { s with fs := fs' }) := by
    intro fs' d' h1 h2 h3
    simp [Options.scratchTempDir, h1, h2, h3]
  have hB : ∀ d', s.scratchPath = [] ∨ s.scratchPath ∉ s.fs.dirs ∨
      ensureDirectory s.fs (childPath s.scratchPath "tmp") = none →
      Options.scratchTempDir s d' = (d', s) := by
    intro d' h
    rcases h with h | h | h
    · simp [Options.scratchTempDir, h]
    · simp [Options.scratchTempDir, h]
    · by_cases hc : s.scratchPath ≠ [] ∧ s.scratchPath ∈ s.fs.dirs
      · simp [Options.scratchTempDir, hc.1, hc.2, h]
      · rcases not_and_or.mp hc with hc' | hc'
        · simp [Options.scratchTempDir, not_not.mp hc']
        · simp [Options.scratchTempDir, hc']
  refine ⟨fun fs' h1 h2 h3 => hA fs' d h1 h2 h3, hB d, fun p hp hpre => ?_, fun h => ?_⟩
  · by_cases h1 : s.scratchPath = []
    · have hst := hB [] (Or.inl h1)
      simp [Options.cleanUpScratchTempDir, hst, hp]
    · by_cases h2 : s.scratchPath ∈ s.fs.dirs
      · rcases hE : ensureDirectory s.fs (childPath s.scratchPath "tmp") with _ | fs'
        · have hst := hB [] (Or.inr (Or.inr hE))
          simp [Options.cleanUpScratchTempDir, hst, hp]
        · have hst := hA fs' [] h1 h2 hE
          have hmem : p ∈ fs'.dirs := by
            revert hE
            unfold ensureDirectory
            split
            · intro hE
              cases hE
              exact hp
            · split
              · intro hE
                cases hE
                exact List.mem_cons_of_mem _ hp
              · intro hE
                cases hE
          have hne : childPath s.scratchPath "tmp" ≠ [] := by simp [childPath]
          have hpre' : ¬ childPath s.scratchPath "tmp" <+: p := by
            simp [← List.isPrefixOf_iff_prefix, hpre]
          simp only [Options.cleanUpScratchTempDir, hst]
          simp [hne, removeIfExists, List.mem_filter, hmem, hpre']
      · have hst := hB [] (Or.inr (Or.inl h2))
        simp [Options.cleanUpScratchTempDir, hst, hp]
  · have hst := hB [] (h.imp_right Or.inl)
    simp [Options.cleanUpScratchTempDir, hst]

/-- A filesystem where the scratch directory `["scratch"]` exists and its
`tmp` child can be created; the OS temp directory `["tmp"]` also exists. -/
def scratchFs : FileSystem :=
  { dirs := [["scratch"], ["tmp"]], creatable := [["scratch", "tmp"]] }

/-- A state whose global scratch path is the existing `["scratch"]`. -/
def scratchState : OptionsState :=
  { baseState with fs := scratchFs, scratchPath := ["scratch"] }

/-- Witness for C6: on `scratchState` the temp dir is the scratch `tmp`
child, and cleanup keeps the OS temp directory `["tmp"]`; on `baseState`
(empty scratch path) the default is returned and cleanup is the identity. -/
theorem scratchTempDir_spec_witness :
    Options.scratchTempDir scratchState ["fallback"]
      = (childPath scratchState.scratchPath "tmp",
         { scratchState with
             fs := ⟨[["scratch", "tmp"], ["scratch"], ["tmp"]], [["scratch", "tmp"]]⟩ }) ∧
    ["tmp"] ∈ (Options.cleanUpScratchTempDir scratchState).fs.dirs ∧
    Options.scratchTempDir baseState ["fallback"] = (["fallback"], baseState) ∧
    Options.cleanUpScratchTempDir baseState = baseState :=
  ⟨(scratchTempDir_spec scratchState ["fallback"]).1
     ⟨[["scratch", "tmp"], ["scratch"], ["tmp"]], [["scratch", "tmp"]]⟩
     (by decide) (by decide) (by decide),
   (scratchTempDir_spec scratchState ["fallback"]).2.2.1 ["tmp"] (by decide) (by decide),
   (scratchTempDir_spec baseState ["fallback"]).2.1 (Or.inl rfl),
   (scratchTempDir_spec baseState ["fallback"]).2.2.2 (Or.inl rfl)⟩

/-- Claim C7 (confirmed): each setter writes only its own key — every other
key of the settings store reads the same before and after the call. Shown
for `setEnableAccessibility`, `setClipboardMonitoring`,
`setIgnoreGpuBlacklist`, `setDisableGpuDriverBugWorkarounds`,
`setDesktopRenderingEngine`, `setZoomLevel`, and `setFixedWidthFont`
(both the store and the remove branch). -/
theorem setters_frame (s : OptionsState) (k : String) (d : QVariant) :
    (∀ b : Bool, k ≠ "view.accessibility" →
       Settings.value (Options.setEnableAccessibility s b).settings k d
         = Settings.value s.settings k d) ∧
    (∀ b : Bool, k ≠ "clipboard.monitoring" →
       Settings.value (Options.setClipboardMonitoring s b).settings k d
         = Settings.value s.settings k d) ∧
    (∀ b : Bool, k ≠ "general.ignoreGpuBlacklist" →
       Settings.value (Options.setIgnoreGpuBlacklist s b).settings k d
         = Settings.value s.settings k d) ∧
    (∀ b : Bool, k ≠ "general.disableGpuDriverBugWorkarounds" →
       Settings.value (Options.setDisableGpuDriverBugWorkarounds s b).settings k d
         = Settings.value s.settings k d) ∧
    (∀ e : String, k ≠ "desktop.renderingEngine" →
       Settings.value (Options.setDesktopRenderingEngine s e).settings k d
         = Settings.value s.settings k d) ∧
    (∀ z : ℚ, k ≠ "view.zoomLevel" →
       Settings.value (Options.setZoomLevel s z).settings k d
         = Settings.value s.settings k d) ∧
    (∀ f : String, k ≠ "font.fixedWidth" →
       Settings.value (Options.setFixedWidthFont s f).settings k d
         = Settings.value s.settings k d) := by
  refine ⟨fun b h => ?_, fun b h => ?_, fun b h => ?_, fun b h => ?_,
          fun e h => ?_, fun z h => ?_, fun f h => ?_⟩
  · exact Settings.value_setValue_ne s.settings _ k _ d h
  · exact Settings.value_setValue_ne s.settings _ k _ d h
  · exact Settings.value_setValue_ne s.settings _ k _ d h
  · exact Settings.value_setValue_ne s.settings _ k _ d h
  · exact Settings.value_setValue_ne s.settings _ k _ d h
  · exact Settings.value_setValue_ne s.settings _ k _ d h
  · by_cases hf : f = "" <;>
      simp [Options.setFixedWidthFont, hf,
            Settings.value_setValue_ne s.settings _ k _ d h,
            Settings.value_removeKey_ne s.settings _ k d h]

/-- Witness for C7: on `presentState` the unrelated key
`"view.zoomLevel"` reads the same after each setter runs. -/
theorem setters_frame_witness :
    Settings.value (Options.setEnableAccessibility presentState false).settings
      "view.zoomLevel" .vNull = .vDouble 2 ∧
    Settings.value (Options.setClipboardMonitoring presentState true).settings
      "view.zoomLevel" .vNull = .vDouble 2 ∧
    Settings.value (Options.setIgnoreGpuBlacklist presentState true).settings
      "view.zoomLevel" .vNull = .vDouble 2 ∧
    Settings.value (Options.setDisableGpuDriverBugWorkarounds presentState true).settings
      "view.zoomLevel" .vNull = .vDouble 2 ∧
    Settings.value (Options.setDesktopRenderingEngine presentState "software").settings
      "view.zoomLevel" .vNull = .vDouble 2 ∧
    Settings.value (Options.setFixedWidthFont presentState "Monaco").settings
      "view.zoomLevel" .vNull = .vDouble 2 :=
  have hbase : Settings.value presentState.settings "view.zoomLevel" .vNull
      = .vDouble 2 := by decide
  have h := setters_frame presentState "view.zoomLevel" .vNull
  ⟨(h.1 false (by decide)).trans hbase,
   (h.2.1 true (by decide)).trans hbase,
   (h.2.2.1 true (by decide)).trans hbase,
   (h.2.2.2.1 true (by decide)).trans hbase,
   (h.2.2.2.2.1 "software" (by decide)).trans hbase,
   (h.2.2.2.2.2.2 "Monaco" (by decide)).trans hbase⟩

theorem mem_proportionalFontList_ne_sansSerif (plat : Platform) (f : String)
    (h : f ∈ proportionalFontList plat) : f ≠ "sans-serif" := by
  cases plat <;> simp [proportionalFontList] at h <;>
    rcases h with rfl | rfl | rfl | rfl | rfl | rfl <;> decide

/-- Claim C8 (confirmed): `proportionalFont` returns the stored
`"font.proportional"` value verbatim when it is non-empty; otherwise it
returns the first candidate of the platform list that exactly matches an
installed font (the fixed-width restriction being off), wrapped in double
quotes, and the unquoted generic `"sans-serif"` when no candidate
matches. -/
theorem proportionalFont_spec (env : FontEnv) (plat : Platform) (s : OptionsState) :
    ((Settings.value s.settings "font.proportional" .vNull).toQString ≠ "" →
       Options.proportionalFont env plat s
         = (Settings.value s.settings "font.proportional" .vNull).toQString) ∧
    ((Settings.value s.settings "font.proportional" .vNull).toQString = "" →
       (∀ f, (proportionalFontList plat).find? (fun g => env.installed.contains g) = some f →
          Options.proportionalFont env plat s = "\"" ++ f ++ "\"") ∧
       ((proportionalFontList plat).find? (fun g => env.installed.contains g) = none →
          Options.proportionalFont env plat s = "sans-serif")) := by
  have hpred : (fontMatches env false) = fun g => env.installed.contains g := by
    funext g
    simp [fontMatches]
  refine ⟨fun h => ?_, fun h => ⟨fun f hf => ?_, fun hf => ?_⟩⟩
  · simp [Options.proportionalFont, h]
  · have hf' : (proportionalFontList plat).find? (fontMatches env false) = some f := by
      rw [hpred]
      exact hf
    have hmem : f ∈ proportionalFontList plat :=
      List.mem_of_find?_eq_some hf'
    have hne := mem_proportionalFontList_ne_sansSerif plat f hmem
    simp [Options.proportionalFont, h, findFirstMatchingFont, hf', hne, quoted]
  · have hf' : (proportionalFontList plat).find? (fontMatches env false) = none := by
      rw [hpred]
      exact hf
    simp [Options.proportionalFont, h, findFirstMatchingFont, hf']

/-- A font environment where only `"DejaVu Sans"` gives an exact match
(and no font is fixed-width). -/
def dejaVuEnv : FontEnv := { installed := ["DejaVu Sans"], fixedWidth := [] }

/-- A font environment with no installed fonts at all. -/
def emptyFontEnv : FontEnv := { installed := [], fixedWidth := [] }

/-- Witness for C8: with an empty store on Linux, the second candidate
`"DejaVu Sans"` is the first match and is returned in double quotes; with
no installed fonts the generic `"sans-serif"` is returned unquoted. -/
theorem proportionalFont_spec_witness :
    Options.proportionalFont dejaVuEnv .linux baseState = "\"DejaVu Sans\"" ∧
    Options.proportionalFont emptyFontEnv .linux baseState = "sans-serif" :=
  ⟨((proportionalFont_spec dejaVuEnv .linux baseState).2 (by decide)).1
     "DejaVu Sans" (by decide),
   ((proportionalFont_spec emptyFontEnv .linux baseState).2 (by decide)).2 (by decide)⟩

/-- Claim C9 (confirmed): after `setFixedWidthFont f` with a non-empty `f`,
`fixedWidthFont` returns `f` surrounded by double-quote characters —
which is never `f` itself — and `setFixedWidthFont ""` removes the
`"font.fixedWidth"` key, so the getter falls back to platform font
detection. -/
theorem fixedWidthFont_roundTrip (env : FontEnv) (plat : Platform)
    (s : OptionsState) (f : String) (hf : f ≠ "") :
    Options.fixedWidthFont env plat (Options.setFixedWidthFont s f)
      = "\"" ++ f ++ "\"" ∧
    "\"" ++ f ++ "\"" ≠ f ∧
    Settings.lookup (Options.setFixedWidthFont s "").settings "font.fixedWidth"
      = none ∧
    Options.fixedWidthFont env plat (Options.setFixedWidthFont s "")
      = Options.detectedFixedWidthFont env plat := by
  refine ⟨?_, ?_, ?_, ?_⟩
  · simp [Options.setFixedWidthFont, hf, Options.fixedWidthFont, Settings.value,
          Settings.lookup_setValue_self, QVariant.toQString, hf]
  · intro hcon
    have hlen := congrArg String.length hcon
    have hq : ("\"" : String).length = 1 := rfl
    simp only [String.length_append, hq] at hlen
    omega
  · simp [Options.setFixedWidthFont, Settings.lookup_removeKey_self]
  · simp [Options.setFixedWidthFont, Options.fixedWidthFont, Settings.value,
          Settings.lookup_removeKey_self, QVariant.toQString]

/-- Witness for C9: round trip at the font name `"Fira Code"` on Linux
with the Ubuntu Mono environment. -/
theorem fixedWidthFont_roundTrip_witness :
    Options.fixedWidthFont dejaVuEnv .linux
      (Options.setFixedWidthFont baseState "Fira Code") = "\"Fira Code\"" ∧
    Options.fixedWidthFont dejaVuEnv .linux (Options.setFixedWidthFont baseState "")
      = Options.detectedFixedWidthFont dejaVuEnv .linux :=
  ⟨(fixedWidthFont_roundTrip dejaVuEnv .linux baseState "Fira Code" (by decide)).1,
   (fixedWidthFont_roundTrip dejaVuEnv .linux baseState "Fira Code" (by decide)).2.2.2⟩

/-- `portNumber` reads only the cached port string and the random stream:
states agreeing on those two fields return equal port strings. -/
theorem portNumber_fst_congr (s1 s2 : OptionsState)
    (hpn : s1.portNumber_ = s2.portNumber_)
    (hrand : s1.randStream = s2.randStream) :
    (Options.portNumber s1).1 = (Options.portNumber s2).1 := by
  simp only [Options.portNumber, hpn, hrand]
  by_cases hl : s2.portNumber_.length = 0
  · rw [if_pos hl, if_pos hl]
  · rw [if_neg hl, if_neg hl]

/-- Counterexample to Claim C1 as stated: `randA` and `randB` agree on the
settings store, environment, filesystem, scratch path, and cached port —
everything except the random source — yet `portNumber` returns `"8080"` on
one run and `"8081"` on the other. -/
theorem portNumber_not_deterministic :
    randA.settings = randB.settings ∧ randA.env = randB.env ∧
    randA.fs = randB.fs ∧ randA.scratchPath = randB.scratchPath ∧
    randA.portNumber_ = randB.portNumber_ ∧
    (Options.portNumber randA).1 = "8080" ∧
    (Options.portNumber randB).1 = "8081" ∧
    (Options.portNumber randA).1 ≠ (Options.portNumber randB).1 := by decide

/-- Claim C1 (amended): every modelled `Options` operation reads only the
settings store (and, for the font getters, the font database passed in),
so two states agreeing on settings, environment, filesystem, scratch path,
and cached port give equal results and equal resulting stores — except
`portNumber`/`newPortNumber`, which also consume the random source and
agree only when the pending random draws agree as well. -/
theorem options_deterministic (s1 s2 : OptionsState)
    (hset : s1.settings = s2.settings) (_henv : s1.env = s2.env)
    (hfs : s1.fs = s2.fs) (hsp : s1.scratchPath = s2.scratchPath)
    (hpn : s1.portNumber_ = s2.portNumber_) :
    Options.zoomLevel s1 = Options.zoomLevel s2 ∧
    Options.enableAccessibility s1 = Options.enableAccessibility s2 ∧
    Options.clipboardMonitoring s1 = Options.clipboardMonitoring s2 ∧
    Options.ignoreGpuBlacklist s1 = Options.ignoreGpuBlacklist s2 ∧
    Options.disableGpuDriverBugWorkarounds s1
      = Options.disableGpuDriverBugWorkarounds s2 ∧
    Options.desktopRenderingEngine s1 = Options.desktopRenderingEngine s2 ∧
    (∀ env plat, Options.proportionalFont env plat s1
       = Options.proportionalFont env plat s2) ∧
    (∀ env plat, Options.fixedWidthFont env plat s1
       = Options.fixedWidthFont env plat s2) ∧
    (∀ b, (Options.setEnableAccessibility s1 b).settings
       = (Options.setEnableAccessibility s2 b).settings) ∧
    (∀ d, (Options.scratchTempDir s1 d).1 = (Options.scratchTempDir s2 d).1 ∧
       (Options.scratchTempDir s1 d).2.fs = (Options.scratchTempDir s2 d).2.fs) ∧
    (s1.randStream = s2.randStream →
       (Options.portNumber s1).1 = (Options.portNumber s2).1 ∧
       (Options.newPortNumber s1).1 = (Options.newPortNumber s2).1) := by
  refine ⟨?_, ?_, ?_, ?_, ?_, ?_, fun env plat => ?_, fun env plat => ?_,
          fun b => ?_, fun d => ?_, fun hrand => ?_⟩
  · simp [Options.zoomLevel, hset]
  · simp [Options.enableAccessibility, hset]
  · simp [Options.clipboardMonitoring, hset]
  · simp [Options.ignoreGpuBlacklist, hset]
  · simp [Options.disableGpuDriverBugWorkarounds, hset]
  · simp [Options.desktopRenderingEngine, hset]
  · simp [Options.proportionalFont, hset]
  · simp [Options.fixedWidthFont, hset]
  · simp [Options.setEnableAccessibility, hset]
  · constructor <;>
      · by_cases hc : s2.scratchPath ≠ [] ∧ s2.scratchPath ∈ s2.fs.dirs
        · rcases hE : ensureDirectory s2.fs (childPath s2.scratchPath "tmp")
            with _ | fs' <;>
            simp [Options.scratchTempDir, hfs, hsp, hc.1, hc.2, hE]
        · rcases not_and_or.mp hc with hc' | hc'
          · simp [Options.scratchTempDir, hfs, hsp, not_not.mp hc']
          · simp [Options.scratchTempDir, hfs, hsp, hc']
  · exact ⟨portNumber_fst_congr s1 s2 hpn hrand,
      portNumber_fst_congr { s1 with portNumber_ := "" }
        { s2 with portNumber_ := "" } rfl hrand⟩

/-- Witness for the amended C1 at `randA`/`randB`: the zoom level and the
scratch-temp result agree even though the random streams differ. -/
theorem options_deterministic_witness :
    Options.zoomLevel randA = Options.zoomLevel randB ∧
    (Options.scratchTempDir randA []).1 = (Options.scratchTempDir randB []).1 :=
  have h := options_deterministic randA randB (by decide) (by decide) (by decide)
    (by decide) (by decide)
  ⟨h.1, (h.2.2.2.2.2.2.2.2.2.1 []).1⟩

/-- Counterexample to Claim C10 as stated: at the draw `INT_MIN = -2^31`,
`std::abs` overflows to `INT_MIN`, the truncated C++ remainder is negative,
and the computed port is `4432`, below the claimed lower bound `8080`. -/
theorem portNumber_out_of_range_at_intMin :
    portOfRandom (-(2 ^ 31)) = 4432 ∧
    ¬ 8080 ≤ portOfRandom (-(2 ^ 31)) ∧
    (Options.newPortNumber randMin).1 = "4432" := by decide

/-- Claim C10 (amended): for every 32-bit draw `r` other than `INT_MIN`,
the generated port is `(|r| % 40000) + 8080`, an integer between `8080`
and `48079`; on a state with no cached port, `portNumber` returns its
decimal representation (caching it and consuming the draw), and
`newPortNumber` is `portNumber` on the state with the cache cleared. -/
theorem portNumber_range (r : Int) (h1 : -(2 ^ 31) ≤ r) (h2 : r < 2 ^ 31)
    (h3 : r ≠ -(2 ^ 31)) :
    portOfRandom r = (r.natAbs : Int) % 40000 + 8080 ∧
    8080 ≤ portOfRandom r ∧ portOfRandom r ≤ 48079 ∧
    (∀ s : OptionsState, s.portNumber_ = "" →
       Options.portNumber s
         = (toString (portOfRandom (s.randStream.headD 0)),
            { s with portNumber_ := toString (portOfRandom (s.randStream.headD 0)),
                     randStream := s.randStream.tail })) ∧
    (∀ s : OptionsState,
       Options.newPortNumber s = Options.portNumber { s with portNumber_ := "" }) := by
  have habs : cppAbs r = (r.natAbs : Int) := by
    unfold cppAbs wrap32
    omega
  have heq : portOfRandom r = (r.natAbs : Int) % 40000 + 8080 := by
    unfold portOfRandom cppMod
    rw [habs, if_pos (by omega)]
  refine ⟨heq, ?_, ?_, fun s hs => ?_, fun s => rfl⟩
  · rw [heq]
    omega
  · rw [heq]
    omega
  · have hl : s.portNumber_.length = 0 := by rw [hs]; decide
    unfold Options.portNumber
    rw [if_pos hl]

/-- Witness for the amended C10 at the draw `12345` and, for the
`portNumber` equation, at the fresh state `randA` (whose pending draw
is `0`). -/
theorem portNumber_range_witness :
    portOfRandom 12345 = 12345 % 40000 + 8080 ∧
    8080 ≤ portOfRandom 12345 ∧ portOfRandom 12345 ≤ 48079 ∧
    (Options.portNumber randA).1 = "8080" :=
  have h := portNumber_range 12345 (by decide) (by decide) (by decide)
  have h4 := h.2.2.2.1 randA (by decide)
  ⟨h.1, h.2.1, h.2.2.1, by rw [h4]; decide⟩

end DesktopOptions
